import Mathlib

/-!
Shallow embedding of the TopDog3D gameplay script (src/main.js) in Lean 4.

The repository file `src/main.js` holds two variants of the gameplay script:
an early variant (player lane switching via the keydown listener, obstacle
motion by a constant per-frame increment, fused move/collide/remove loop) and
the current variant (themed spawning, difficulty-scaled spawn interval,
tunnel/hoop collision classification, separate reverse-order removal loop).
Both are embedded below; definitions suffixed `1` come from the early variant.

Numeric values (JS numbers) are embedded as rationals (ℚ).  The bounding-box
intersection primitive (`THREE.Box3.intersectsBox`, supplied by the rendering
library) is modelled as an oracle `overlap : Obstacle → Bool` passed to the
frame step; the scene graph's obstacle content is identified with the live
`obstacles` array, which the code keeps in lockstep with `scene.add`/
`scene.remove`.  Asynchronous GLTF loading is modelled by a `loadOk` flag on
the spawn inputs: a cached asset or a successful load inserts the configured
obstacle, a failed load runs only the error log.  Randomness (`Math.random`)
is modelled by explicit inputs: the chosen lane index, the chosen model index
and the raw sample `rz ∈ [0,1)` used for the spawn depth.
-/

namespace TopDog

/-- A 3-component position vector (THREE.Vector3, restricted to the fields the
gameplay logic reads and writes). -/
structure Vec3 where
  x : ℚ
  y : ℚ
  z : ℚ
deriving DecidableEq

/-- A live obstacle: its world position and the model-type string stored in
`userData.type` by `spawnObstacle` (`none` models a missing `userData`). -/
structure Obstacle where
  pos : Vec3
  type : Option String
deriving DecidableEq

/-- Lane x-coordinates of the current variant: `const lanePositions = [-2.5, 0, 2.5]`. -/
def lanePositions : List ℚ := [-5/2, 0, 5/2]

/-- Lane x-coordinates of the early variant: `const lanePositions = [-2, 0, 2]`. -/
def lanePositions1 : List ℚ := [-2, 0, 2]

/-- Early variant: `const obstacleSpeed = 0.1`. -/
def obstacleSpeed : ℚ := 1/10

/-- Early variant: `const removalZPosition = camera.position.z + 5` with
`camera.position.z = 5`. -/
def removalZPosition1 : ℚ := 10

/-- Current variant: `camera.position.z = 10` (set before the loop starts and
never changed; the resize handler touches only aspect and viewport). -/
def cameraZ : ℚ := 10

/-- Current variant: `const playerSpeed = 5` (units per second) inside `animate`. -/
def playerSpeed : ℚ := 5

/-- Current variant: `const baseSpawnInterval = 2.0`. -/
def baseSpawnInterval : ℚ := 2

/-- Current variant: `const spawnIntervalReductionFactor = 0.1`. -/
def spawnIntervalReductionFactor : ℚ := 1/10

/-- Current variant: `const difficultyStepDistance = 150`. -/
def difficultyStepDistance : ℚ := 150

/-- Current variant: `const minSpawnInterval = 0.75`. -/
def minSpawnInterval : ℚ := 3/4

/-- Current variant: `const maxObstaclesInScene = 15`. -/
def maxObstaclesInScene : Nat := 15

/-- Current variant: `const maxObstaclesPerTheme = 5`. -/
def maxObstaclesPerTheme : Nat := 5

/-- Current variant: `const themeKeys = Object.keys(obstacleThemes)`, in the
declaration order of the `obstacleThemes` object literal. -/
def themeKeys : List String := ["jumps", "tunnels", "hoops", "technical"]

/-- Current variant: the `obstacleThemes` map, indexed by position in
`themeKeys` (the code reads `obstacleThemes[themeKeys[currentThemeIndex]]`). -/
def themeModelsOf : Nat → List String
  | 0 => ["jump1.glb", "jump2.glb", "jump3.glb", "table.glb", "teeter.glb"]
  | 1 => ["CoveredTunnel.glb", "TunnelBendLarge.glb", "TunnelBendSmall.glb", "tunnelline.glb"]
  | 2 => ["smallhoop.glb", "largehoop.glb", "ringette_ring.glb"]
  | 3 => ["slalom.glb", "swingboard.glb"]
  | _ => []

/-- The `positionY` field of `obstacleConfigurations[name]`, with the
`obstacleConfigurations['default']` fallback (0.5) for unconfigured names —
this is the lookup `obstacleConfigurations[file] || obstacleConfigurations['default']`.
The `scale`/`rotation` fields of the configuration involve `Math.PI` and are
never read by any property verified here, so they are not embedded. -/
def configPositionY (file : String) : ℚ :=
  if file = "CoveredTunnel.glb" then 3/5
  else if file = "TunnelBendLarge.glb" then 3/5
  else if file = "TunnelBendSmall.glb" then 1/2
  else if file = "tunnelline.glb" then 1/2
  else if file = "jump1.glb" then 1/10
  else if file = "jump2.glb" then 1/10
  else if file = "jump3.glb" then 1/10
  else if file = "largehoop.glb" then 1
  else if file = "smallhoop.glb" then 7/10
  else if file = "ringette_ring.glb" then 1/10
  else if file = "slalom.glb" then 3/4
  else if file = "swingboard.glb" then 1/2
  else if file = "table.glb" then 2/5
  else if file = "teeter.glb" then 3/10
  else 1/2

/-- List-of-characters substring test: does `hay` contain `needle` as a
contiguous run?  Used to embed JavaScript `String.prototype.includes`. -/
def hasSubstr (needle : List Char) : List Char → Bool
  | [] => needle.isEmpty
  | c :: rest => needle.isPrefixOf (c :: rest) || hasSubstr needle rest

/-- Embeds `s.toLowerCase().includes(sub)` for an already-lowercase `sub`. -/
def includesLower (s sub : String) : Bool :=
  hasSubstr sub.data (s.data.map Char.toLower)

/-- The per-obstacle collision rule of the current `animate` loop
(src/main.js, the branch over `obstacleType`): a type containing `'tunnel'`
(case-insensitively) never counts as a collision even when the boxes overlap;
a type containing `'hoop'`, any other type, and a missing type all count the
raw overlap as the collision verdict. -/
def collisionDetected (ty : Option String) (overlap : Bool) : Bool :=
  match ty with
  | some t =>
    if includesLower t "tunnel" then false
    else if includesLower t "hoop" then overlap
    else overlap
  | none => overlap

/-- The collision loop `for (let i = 0; i < obstacles.length; i++) { ... break }`:
returns the first obstacle (in index order) whose rule fires, or `none`. -/
def firstCollision (q : Obstacle → Bool) : List Obstacle → Option Obstacle
  | [] => none
  | o :: rest => if q o then some o else firstCollision q rest

/-- `obstacles.splice(i, 1)`: drop the element at index `i`. -/
def spliceAt (l : List Obstacle) (i : Nat) : List Obstacle :=
  l.take i ++ l.drop (i + 1)

/-- The reverse-index removal loop of the current `animate`
(`for (let i = obstacles.length - 1; i >= 0; i--) if (z > thr) splice(i,1)`),
embedded index-by-index: `removalLoopAux thr n l` processes indices
`n-1, n-2, …, 0` of the evolving list. -/
def removalLoopAux (thr : ℚ) : Nat → List Obstacle → List Obstacle
  | 0, l => l
  | n + 1, l =>
    match l.get? n with
    | none => removalLoopAux thr n l
    | some o =>
      if o.pos.z > thr then removalLoopAux thr n (spliceAt l n)
      else removalLoopAux thr n l

/-- The whole removal pass: start at index `length - 1`. -/
def removalLoop (thr : ℚ) (l : List Obstacle) : List Obstacle :=
  removalLoopAux thr l.length l

/-- The spawn-interval computation of the current `animate`:
`baseSpawnInterval - floor(distanceCovered / difficultyStepDistance) * reduction`,
clamped from below by `minSpawnInterval` via the `if (interval < min)` guard. -/
def currentSpawnIntervalCode (distanceCovered : ℚ) : ℚ :=
  let v := baseSpawnInterval -
    ((⌊distanceCovered / difficultyStepDistance⌋ : ℤ) : ℚ) * spawnIntervalReductionFactor
  if v < minSpawnInterval then minSpawnInterval else v

/-- The theme-switching block at the top of `spawnObstacle`: when the per-theme
counter has reached the cap, advance the theme index modulo the number of
themes and reset the counter; otherwise leave both untouched. -/
def themeAfterEntry (t c : Nat) : Nat × Nat :=
  if c ≥ maxObstaclesPerTheme then ((t + 1) % themeKeys.length, 0) else (t, c)

/-- Theme index and per-theme counter after one successful spawn: the entry
rotation followed by `obstaclesSpawnedInCurrentTheme++`. -/
def themeSpawnStep (p : Nat × Nat) : Nat × Nat :=
  ((themeAfterEntry p.1 p.2).1, (themeAfterEntry p.1 p.2).2 + 1)

/-- The theme a spawn issued in state `(t, c)` runs under (the index after the
entry rotation, which selects `themeKeys[...]` and its model list). -/
def themeUsed (p : Nat × Nat) : Nat := (themeAfterEntry p.1 p.2).1

/-- The mutable game state of the current variant (the early variant's
`currentLaneIndex` lives only in the keydown listener, embedded separately
as `keydown`). -/
structure GameState where
  isGameOver : Bool
  distanceCovered : ℚ
  obstacles : List Obstacle
  lastSpawnTime : ℚ
  currentThemeIndex : Nat
  obstaclesSpawnedInCurrentTheme : Nat
  playerColor : Nat
deriving DecidableEq

/-- The start-of-process game state of the current variant. -/
def initialState : GameState :=
  { isGameOver := false
    distanceCovered := 0
    obstacles := []
    lastSpawnTime := 0
    currentThemeIndex := 0
    obstaclesSpawnedInCurrentTheme := 0
    playerColor := 0xff0000 }

/-- The non-deterministic inputs of one spawn attempt: the two `Math.random`
draws for lane and model (already floored to indices, always in range for the
real generator) plus the raw draw `rz ∈ [0,1)` for the spawn depth, and
whether the asset is available (cached, or its asynchronous load succeeds). -/
structure SpawnInputs where
  laneIdx : Nat
  modelPick : Nat
  rz : ℚ
  loadOk : Bool
deriving DecidableEq

/-- The model file a spawn attempt in state `s` picks given inputs `inp`. -/
def pickedFile (inp : SpawnInputs) (s : GameState) : String :=
  (themeModelsOf (themeAfterEntry s.currentThemeIndex s.obstaclesSpawnedInCurrentTheme).1).getD
    inp.modelPick ""

/-- `spawnObstacle()` of the current variant.  The entry theme rotation is
committed unconditionally; an empty theme list logs and returns; otherwise a
model is picked, and — if the asset is available (`loadOk`) — the configured
obstacle is placed at `(laneX, config.positionY, -rz*50 - 20)`, tagged with
its type, the per-theme counter is incremented, and the obstacle is appended
to the scene and the live array.  A failed asynchronous load only logs
(`console.error`): nothing is inserted and no retry is issued.  For an
uncached asset the insertion really happens in the load callback on a later
tick; its effect on the state is identical and is modelled atomically here. -/
def spawnAttempt (inp : SpawnInputs) (s : GameState) : GameState :=
  let tc := themeAfterEntry s.currentThemeIndex s.obstaclesSpawnedInCurrentTheme
  let themeModels := themeModelsOf tc.1
  if themeModels.isEmpty then
    { s with currentThemeIndex := tc.1, obstaclesSpawnedInCurrentTheme := tc.2 }
  else
    let file := themeModels.getD inp.modelPick ""
    if inp.loadOk then
      let laneX := lanePositions.getD inp.laneIdx 0
      let z := -(inp.rz * 50) - 20
      let ob : Obstacle := ⟨⟨laneX, configPositionY file, z⟩, some file⟩
      { s with currentThemeIndex := tc.1
               obstaclesSpawnedInCurrentTheme := tc.2 + 1
               obstacles := s.obstacles ++ [ob] }
    else
      { s with currentThemeIndex := tc.1, obstaclesSpawnedInCurrentTheme := tc.2 }

/-- `distanceCovered += playerSpeed * deltaTime` (first statement of the
running branch of `animate`). -/
def distancePhase (dt : ℚ) (s : GameState) : GameState :=
  { s with distanceCovered := s.distanceCovered + playerSpeed * dt }

/-- The collision loop of the current `animate`: on the first obstacle whose
rule fires, set `isGameOver`, paint the player blue (0x0000ff) and break. -/
def collisionPhase (overlap : Obstacle → Bool) (s : GameState) : GameState :=
  match firstCollision (fun o => collisionDetected o.type (overlap o)) s.obstacles with
  | some _ => { s with isGameOver := true, playerColor := 0x0000ff }
  | none => s

/-- The removal loop of the current `animate`: reverse-index sweep removing
every obstacle with `position.z > camera.position.z + 10` from the scene and
the live array. -/
def removalPhase (s : GameState) : GameState :=
  { s with obstacles := removalLoop (cameraZ + 10) s.obstacles }

/-- The spawn gate of the current `animate`: when the elapsed time since the
last spawn exceeds the difficulty-scaled interval and fewer than
`maxObstaclesInScene` obstacles are live, call `spawnObstacle()` and stamp
`lastSpawnTime = currentTime`. -/
def spawnPhase (ct : ℚ) (inp : SpawnInputs) (s : GameState) : GameState :=
  if ct - s.lastSpawnTime > currentSpawnIntervalCode s.distanceCovered ∧
      s.obstacles.length < maxObstaclesInScene then
    { spawnAttempt inp s with lastSpawnTime := ct }
  else s

/-- One frame of the current `animate(currentTime)`: when `isGameOver` the
whole gameplay block is skipped (only rendering runs, which touches no game
state); otherwise distance update, collision loop, removal loop and spawn
gate run in that order. -/
def frameStep (dt ct : ℚ) (overlap : Obstacle → Bool) (inp : SpawnInputs)
    (s : GameState) : GameState :=
  if s.isGameOver then s
  else spawnPhase ct inp (removalPhase (collisionPhase overlap (distancePhase dt s)))

/-- The keydown listener of the early variant: ignored entirely once
`isGameOver`; ArrowLeft decrements the lane index unless it is 0; ArrowRight
increments it unless it is `lanePositions.length - 1`; other keys do nothing. -/
def keydown (key : String) (gameOver : Bool) (laneIdx : Nat) : Nat :=
  if gameOver then laneIdx
  else if key = "ArrowLeft" then
    if laneIdx > 0 then laneIdx - 1 else laneIdx
  else if key = "ArrowRight" then
    if laneIdx < lanePositions1.length - 1 then laneIdx + 1 else laneIdx
  else laneIdx

/-- The fused move/collide/remove loop of the early variant's `animate`
(reverse iteration `for (let i = obstacles.length - 1; i >= 0; i--)`): each
obstacle first advances by `obstacleSpeed` on z, is then collision-tested
(via the `hit` oracle on its updated position; a hit sets game over and
breaks, leaving lower indices unprocessed), and is otherwise removed when
past `removalZPosition`.  Returns the resulting array and the game-over flag. -/
def mcrAux (hit : Vec3 → Bool) : Nat → List Obstacle → List Obstacle × Bool
  | 0, l => (l, false)
  | n + 1, l =>
    match l.get? n with
    | none => mcrAux hit n l
    | some o =>
      let o2 : Obstacle := ⟨⟨o.pos.x, o.pos.y, o.pos.z + obstacleSpeed⟩, o.type⟩
      let l2 := l.set n o2
      if hit o2.pos then (l2, true)
      else if o2.pos.z > removalZPosition1 then mcrAux hit n (spliceAt l2 n)
      else mcrAux hit n l2

/-- The whole fused loop of the early variant, starting at the last index. -/
def moveCollideRemove (hit : Vec3 → Bool) (l : List Obstacle) : List Obstacle × Bool :=
  mcrAux hit l.length l

/-- The obstacle a successful spawn attempt inserts: lane x-coordinate,
configured `positionY`, random depth `-rz·50 − 20`, tagged with its model
file as `userData.type`. -/
def spawnedOb (inp : SpawnInputs) (s : GameState) : Obstacle :=
  ⟨⟨lanePositions.getD inp.laneIdx 0, configPositionY (pickedFile inp s),
    -(inp.rz * 50) - 20⟩, some (pickedFile inp s)⟩

/-- A sample obstacle (a `table.glb` spawn in the middle lane at depth −30). -/
def obTable : Obstacle := ⟨⟨0, 2/5, -30⟩, some "table.glb"⟩

/-- A sample obstacle already past the removal threshold (z = 30). -/
def obFar : Obstacle := ⟨⟨0, 2/5, 30⟩, some "table.glb"⟩

/-- A sample running state holding one live obstacle. -/
def sampleRunning : GameState :=
  { isGameOver := false
    distanceCovered := 0
    obstacles := [obTable]
    lastSpawnTime := 0
    currentThemeIndex := 0
    obstaclesSpawnedInCurrentTheme := 0
    playerColor := 0xff0000 }

/-- A sample state in which the run has already ended. -/
def sampleOver : GameState :=
  { isGameOver := true
    distanceCovered := 7
    obstacles := [obTable]
    lastSpawnTime := 3
    currentThemeIndex := 2
    obstaclesSpawnedInCurrentTheme := 4
    playerColor := 0x0000ff }

/-- A sample running state whose per-theme spawn counter has reached the cap. -/
def sampleCapped : GameState :=
  { isGameOver := false
    distanceCovered := 0
    obstacles := []
    lastSpawnTime := 0
    currentThemeIndex := 0
    obstaclesSpawnedInCurrentTheme := 5
    playerColor := 0xff0000 }

/-- A bounding-box oracle reporting no overlap at all. -/
def noOverlap : Obstacle → Bool := fun _ => false

/-- Spawn inputs whose asynchronous asset load fails. -/
def inpFail : SpawnInputs := ⟨0, 0, 0, false⟩

/-- Spawn inputs with both random indices 0, depth draw 0, and a successful load. -/
def inpZero : SpawnInputs := ⟨0, 0, 0, true⟩

/-! ## Helper lemmas -/

theorem firstCollision_eq_some (q : Obstacle → Bool) :
    ∀ (l : List Obstacle) (o : Obstacle), firstCollision q l = some o →
      q o = true ∧ ∃ l₁ l₂, l = l₁ ++ o :: l₂ ∧ ∀ p ∈ l₁, q p = false := by
  intro l
  induction l with
  | nil => intro o h; simp [firstCollision] at h
  | cons a rest ih =>
    intro o h
    by_cases hq : q a
    · simp only [firstCollision, hq, if_true] at h
      obtain rfl : a = o := by injection h
      exact ⟨hq, [], rest, rfl, by simp⟩
    · simp only [firstCollision, hq, if_false, Bool.false_eq_true] at h
      obtain ⟨h1, l₁, l₂, rfl, h2⟩ := ih o h
      refine ⟨h1, a :: l₁, l₂, rfl, ?_⟩
      intro p hp
      rcases List.mem_cons.mp hp with rfl | hp
      · exact Bool.eq_false_iff.mpr hq
      · exact h2 p hp

theorem firstCollision_eq_none (q : Obstacle → Bool) :
    ∀ l : List Obstacle, firstCollision q l = none → ∀ o ∈ l, q o = false := by
  intro l
  induction l with
  | nil => intro _ o ho; simp at ho
  | cons a rest ih =>
    intro h o ho
    by_cases hq : q a
    · simp [firstCollision, hq] at h
    · simp only [firstCollision, hq, if_false, Bool.false_eq_true] at h
      rcases List.mem_cons.mp ho with rfl | ho
      · exact Bool.eq_false_iff.mpr hq
      · exact ih h o ho

theorem firstCollision_isSome_iff (q : Obstacle → Bool) (l : List Obstacle) :
    (firstCollision q l).isSome = true ↔ ∃ o ∈ l, q o = true := by
  induction l with
  | nil => simp [firstCollision]
  | cons a rest ih =>
    by_cases hq : q a
    · simp [firstCollision, hq]
    · simp [firstCollision, hq, ih, Bool.eq_false_iff.mpr hq]

theorem spawnAttempt_isGameOver (inp : SpawnInputs) (s : GameState) :
    (spawnAttempt inp s).isGameOver = s.isGameOver := by
  unfold spawnAttempt; dsimp only; split
  · rfl
  · split <;> rfl

theorem spawnAttempt_distanceCovered (inp : SpawnInputs) (s : GameState) :
    (spawnAttempt inp s).distanceCovered = s.distanceCovered := by
  unfold spawnAttempt; dsimp only; split
  · rfl
  · split <;> rfl

theorem spawnAttempt_lastSpawnTime (inp : SpawnInputs) (s : GameState) :
    (spawnAttempt inp s).lastSpawnTime = s.lastSpawnTime := by
  unfold spawnAttempt; dsimp only; split
  · rfl
  · split <;> rfl

theorem spawnAttempt_playerColor (inp : SpawnInputs) (s : GameState) :
    (spawnAttempt inp s).playerColor = s.playerColor := by
  unfold spawnAttempt; dsimp only; split
  · rfl
  · split <;> rfl

theorem collisionPhase_obstacles (ov : Obstacle → Bool) (s : GameState) :
    (collisionPhase ov s).obstacles = s.obstacles := by
  unfold collisionPhase; split <;> rfl

theorem collisionPhase_theme (ov : Obstacle → Bool) (s : GameState) :
    (collisionPhase ov s).currentThemeIndex = s.currentThemeIndex ∧
      (collisionPhase ov s).obstaclesSpawnedInCurrentTheme = s.obstaclesSpawnedInCurrentTheme := by
  unfold collisionPhase; split <;> exact ⟨rfl, rfl⟩

theorem collisionPhase_isGameOver_of_none (ov : Obstacle → Bool) (s : GameState)
    (h : firstCollision (fun o => collisionDetected o.type (ov o)) s.obstacles = none) :
    (collisionPhase ov s).isGameOver = s.isGameOver := by
  unfold collisionPhase; rw [h]

theorem collisionPhase_isGameOver_of_some (ov : Obstacle → Bool) (s : GameState) (o : Obstacle)
    (h : firstCollision (fun o => collisionDetected o.type (ov o)) s.obstacles = some o) :
    (collisionPhase ov s).isGameOver = true ∧ (collisionPhase ov s).playerColor = 0x0000ff := by
  unfold collisionPhase; rw [h]; exact ⟨rfl, rfl⟩

theorem spawnPhase_isGameOver (ct : ℚ) (inp : SpawnInputs) (s : GameState) :
    (spawnPhase ct inp s).isGameOver = s.isGameOver := by
  unfold spawnPhase; split
  · exact spawnAttempt_isGameOver inp s
  · rfl

theorem spawnPhase_playerColor (ct : ℚ) (inp : SpawnInputs) (s : GameState) :
    (spawnPhase ct inp s).playerColor = s.playerColor := by
  unfold spawnPhase; split
  · exact spawnAttempt_playerColor inp s
  · rfl

theorem removalLoopAux_spec (thr : ℚ) :
    ∀ (n : Nat) (l : List Obstacle), n ≤ l.length →
      removalLoopAux thr n l =
        (l.take n).filter (fun o => decide (o.pos.z ≤ thr)) ++ l.drop n := by
  intro n
  induction n with
  | zero => intro l _; simp [removalLoopAux]
  | succ n ih =>
    intro l hn
    have hlt : n < l.length := hn
    have hgE : l[n]? = some l[n] := List.getElem?_eq_getElem hlt
    have hg : l.get? n = some l[n] := by rw [List.get?_eq_getElem?]; exact hgE
    unfold removalLoopAux
    rw [hg]
    dsimp only
    have htksucc : l.take (n + 1) = l.take n ++ [l[n]] := by
      rw [List.take_succ, hgE]; rfl
    by_cases hz : l[n].pos.z > thr
    · rw [if_pos hz]
      have hsplen : n ≤ (spliceAt l n).length := by
        simp only [spliceAt, List.length_append, List.length_take, List.length_drop]
        omega
      rw [ih (spliceAt l n) hsplen]
      have htk : (spliceAt l n).take n = l.take n :=
        List.take_left' (by simp only [List.length_take]; omega)
      have hdp : (spliceAt l n).drop n = l.drop (n + 1) :=
        List.drop_left' (by simp only [List.length_take]; omega)
      rw [htk, hdp, htksucc, List.filter_append]
      have hkeep : decide (l[n].pos.z ≤ thr) = false :=
        decide_eq_false (not_le.mpr hz)
      simp [hkeep]
    · rw [if_neg hz]
      rw [ih l (Nat.le_of_succ_le hn)]
      have hkeep : decide (l[n].pos.z ≤ thr) = true :=
        decide_eq_true (le_of_not_lt hz)
      have hdropn : l.drop n = l[n] :: l.drop (n + 1) :=
        List.drop_eq_getElem_cons hlt
      rw [htksucc, List.filter_append, hdropn]
      simp [hkeep]

theorem removalLoop_eq_filter (thr : ℚ) (l : List Obstacle) :
    removalLoop thr l = l.filter (fun o => decide (o.pos.z ≤ thr)) := by
  unfold removalLoop
  rw [removalLoopAux_spec thr l.length l le_rfl]
  simp

theorem mem_removalLoop (thr : ℚ) (l : List Obstacle) (o : Obstacle) :
    o ∈ removalLoop thr l ↔ o ∈ l ∧ o.pos.z ≤ thr := by
  rw [removalLoop_eq_filter]
  simp [List.mem_filter]

theorem mcrAux_xy (hit : Vec3 → Bool) :
    ∀ (n : Nat) (l : List Obstacle), ∀ p ∈ (mcrAux hit n l).1,
      ∃ o ∈ l, p.pos.x = o.pos.x ∧ p.pos.y = o.pos.y := by
  intro n
  induction n with
  | zero => intro l p hp; exact ⟨p, hp, rfl, rfl⟩
  | succ n ih =>
    intro l p hp
    unfold mcrAux at hp
    cases hg : l.get? n with
    | none =>
      rw [hg] at hp
      exact ih l p hp
    | some o =>
      rw [hg] at hp
      dsimp only at hp
      have ho : o ∈ l := List.get?_mem hg
      have hset : ∀ q, q ∈ l.set n ⟨⟨o.pos.x, o.pos.y, o.pos.z + obstacleSpeed⟩, o.type⟩ →
          ∃ r ∈ l, q.pos.x = r.pos.x ∧ q.pos.y = r.pos.y := by
        intro q hq
        rcases List.mem_or_eq_of_mem_set hq with h | rfl
        · exact ⟨q, h, rfl, rfl⟩
        · exact ⟨o, ho, rfl, rfl⟩
      by_cases hh : hit ⟨o.pos.x, o.pos.y, o.pos.z + obstacleSpeed⟩
      · rw [if_pos hh] at hp
        exact hset p hp
      · rw [if_neg hh] at hp
        by_cases hz : o.pos.z + obstacleSpeed > removalZPosition1
        · rw [if_pos hz] at hp
          obtain ⟨q, hq, hx, hy⟩ := ih _ p hp
          have hq2 : q ∈ l.set n ⟨⟨o.pos.x, o.pos.y, o.pos.z + obstacleSpeed⟩, o.type⟩ := by
            unfold spliceAt at hq
            rcases List.mem_append.mp hq with h | h
            · exact List.mem_of_mem_take h
            · exact List.mem_of_mem_drop h
          obtain ⟨r, hr, hx2, hy2⟩ := hset q hq2
          exact ⟨r, hr, hx.trans hx2, hy.trans hy2⟩
        · rw [if_neg hz] at hp
          obtain ⟨q, hq, hx, hy⟩ := ih _ p hp
          obtain ⟨r, hr, hx2, hy2⟩ := hset q hq
          exact ⟨r, hr, hx.trans hx2, hy.trans hy2⟩

/-! ## Claim theorems -/

/-- C2: once `isGameOver` is true a frame leaves the whole game state
untouched (so no spawns, obstacle motions or `distanceCovered` increments
happen, and it never flips back to false), and a left/right key event leaves
the lane index unchanged. -/
theorem c2_game_over_frozen (dt ct : ℚ) (ov : Obstacle → Bool) (inp : SpawnInputs)
    (s : GameState) (key : String) (idx : Nat) (h : s.isGameOver = true) :
    frameStep dt ct ov inp s = s ∧ (frameStep dt ct ov inp s).isGameOver = true ∧
      keydown key true idx = idx := by
  have hf : frameStep dt ct ov inp s = s := by
    unfold frameStep; rw [if_pos h]
  refine ⟨hf, ?_, ?_⟩
  · rw [hf]; exact h
  · simp [keydown]

theorem c2_game_over_frozen_witness :
    frameStep 1 0 noOverlap inpFail sampleOver = sampleOver ∧
      (frameStep 1 0 noOverlap inpFail sampleOver).isGameOver = true ∧
      keydown "ArrowLeft" true 1 = 1 :=
  c2_game_over_frozen 1 0 noOverlap inpFail sampleOver "ArrowLeft" 1 rfl

/-- C3: the spawn interval computed by the game loop equals
`max (baseSpawnInterval − ⌊distance / difficultyStepDistance⌋ ·
spawnIntervalReductionFactor) minSpawnInterval` for every distance, and at
distance 450 it is exactly 1.7 seconds. -/
theorem c3_spawn_interval :
    (∀ d : ℚ, currentSpawnIntervalCode d =
      max (baseSpawnInterval -
        ((⌊d / difficultyStepDistance⌋ : ℤ) : ℚ) * spawnIntervalReductionFactor)
        minSpawnInterval) ∧
    currentSpawnIntervalCode 450 = 17/10 := by
  constructor
  · intro d
    unfold currentSpawnIntervalCode
    by_cases h : baseSpawnInterval -
        ((⌊d / difficultyStepDistance⌋ : ℤ) : ℚ) * spawnIntervalReductionFactor <
        minSpawnInterval
    · rw [if_pos h, max_eq_right h.le]
    · rw [if_neg h, max_eq_left (le_of_not_lt h)]
  · unfold currentSpawnIntervalCode
    have h3 : (450 : ℚ) / difficultyStepDistance = ((3 : ℤ) : ℚ) := by
      norm_num [difficultyStepDistance]
    rw [h3, Int.floor_intCast]
    norm_num [baseSpawnInterval, spawnIntervalReductionFactor, minSpawnInterval]

/-- C4: the lane index stays within `[0, lanePositions.length − 1] = [0, 2]`;
a left key at index 0 and a right key at the maximum index are no-ops, and
otherwise left/right shift the index by exactly one. -/
theorem c4_lane_clamped :
    (∀ (key : String) (g : Bool) (idx : Nat), idx ≤ 2 → keydown key g idx ≤ 2) ∧
    keydown "ArrowLeft" false 0 = 0 ∧
    keydown "ArrowRight" false 2 = 2 ∧
    (∀ idx : Nat, 0 < idx → keydown "ArrowLeft" false idx = idx - 1) ∧
    (∀ idx : Nat, idx < 2 → keydown "ArrowRight" false idx = idx + 1) := by
  refine ⟨?_, by decide, by decide, ?_, ?_⟩
  · intro key g idx h
    unfold keydown
    split_ifs <;> simp [lanePositions1] at * <;> omega
  · intro idx h
    simp [keydown, h]
  · intro idx h
    simp only [keydown, lanePositions1]
    norm_num
    rw [if_neg (by decide : ¬("ArrowRight" = "ArrowLeft"))]
    rw [if_pos h]

theorem c4_lane_clamped_witness :
    keydown "a" false 2 ≤ 2 ∧ keydown "ArrowLeft" false 2 = 1 ∧
      keydown "ArrowRight" false 0 = 1 :=
  ⟨c4_lane_clamped.1 "a" false 2 (by decide),
   c4_lane_clamped.2.2.2.1 2 (by decide),
   c4_lane_clamped.2.2.2.2 0 (by decide)⟩

theorem frameStep_running_eq (dt ct : ℚ) (ov : Obstacle → Bool) (inp : SpawnInputs)
    (s : GameState) (h : s.isGameOver = false) :
    frameStep dt ct ov inp s =
      spawnPhase ct inp (removalPhase (collisionPhase ov (distancePhase dt s))) := by
  unfold frameStep
  rw [if_neg (by rw [h]; exact Bool.false_ne_true)]

theorem frameStep_isGameOver_running (dt ct : ℚ) (ov : Obstacle → Bool) (inp : SpawnInputs)
    (s : GameState) (h : s.isGameOver = false) :
    (frameStep dt ct ov inp s).isGameOver =
      (firstCollision (fun o => collisionDetected o.type (ov o)) s.obstacles).isSome := by
  rw [frameStep_running_eq dt ct ov inp s h, spawnPhase_isGameOver]
  show (collisionPhase ov (distancePhase dt s)).isGameOver = _
  cases hfc : firstCollision (fun o => collisionDetected o.type (ov o)) s.obstacles with
  | none =>
    rw [collisionPhase_isGameOver_of_none ov (distancePhase dt s) hfc]
    exact h
  | some o =>
    exact (collisionPhase_isGameOver_of_some ov (distancePhase dt s) o hfc).1

/-- C1: a live obstacle whose type string contains `'tunnel'`
(case-insensitively) never counts as a collision, so it can never set
`isGameOver`; for every other type — those containing `'hoop'` and those
matching no special classification — the collision verdict is exactly the
bounding-box overlap, and on a running frame `isGameOver` ends up true
precisely when some live obstacle both overlaps the player and is classified
as colliding. -/
theorem c1_tunnel_hoop_rules :
    (∀ (t : String) (ov : Bool), includesLower t "tunnel" = true →
        collisionDetected (some t) ov = false) ∧
    (∀ (t : String) (ov : Bool), includesLower t "tunnel" = false →
        collisionDetected (some t) ov = ov) ∧
    (∀ (dt ct : ℚ) (ov : Obstacle → Bool) (inp : SpawnInputs) (s : GameState),
        s.isGameOver = false →
        ((frameStep dt ct ov inp s).isGameOver = true ↔
          ∃ o ∈ s.obstacles, collisionDetected o.type (ov o) = true)) := by
  refine ⟨?_, ?_, ?_⟩
  · intro t ov h
    simp [collisionDetected, h]
  · intro t ov h
    simp [collisionDetected, h]
  · intro dt ct ov inp s h
    rw [frameStep_isGameOver_running dt ct ov inp s h]
    exact firstCollision_isSome_iff _ s.obstacles

theorem c1_tunnel_hoop_rules_witness :
    collisionDetected (some "CoveredTunnel.glb") true = false ∧
      collisionDetected (some "table.glb") true = true ∧
      ((frameStep 1 0 (fun _ => true) inpFail sampleRunning).isGameOver = true ↔
        ∃ o ∈ sampleRunning.obstacles, collisionDetected o.type true = true) :=
  ⟨c1_tunnel_hoop_rules.1 "CoveredTunnel.glb" true (by decide),
   c1_tunnel_hoop_rules.2.1 "table.glb" true (by decide),
   c1_tunnel_hoop_rules.2.2 1 0 (fun _ => true) inpFail sampleRunning rfl⟩

/-- C8: the collision loop stops at the first qualifying collision — when it
reports an obstacle, that obstacle qualifies and every obstacle at a smaller
index does not (so at most one obstacle can trigger game-over per frame
evaluation); when it reports none, no obstacle qualifies; and a qualifying
collision on a running frame sets `isGameOver` and paints the player with the
failure color 0x0000ff. -/
theorem c8_first_match_wins :
    (∀ (q : Obstacle → Bool) (l : List Obstacle) (o : Obstacle),
        firstCollision q l = some o →
        q o = true ∧ ∃ l₁ l₂, l = l₁ ++ o :: l₂ ∧ ∀ p ∈ l₁, q p = false) ∧
    (∀ (q : Obstacle → Bool) (l : List Obstacle),
        firstCollision q l = none → ∀ o ∈ l, q o = false) ∧
    (∀ (dt ct : ℚ) (ov : Obstacle → Bool) (inp : SpawnInputs) (s : GameState),
        s.isGameOver = false →
        (∃ o ∈ s.obstacles, collisionDetected o.type (ov o) = true) →
        (frameStep dt ct ov inp s).isGameOver = true ∧
          (frameStep dt ct ov inp s).playerColor = 0x0000ff) := by
  refine ⟨firstCollision_eq_some, firstCollision_eq_none, ?_⟩
  intro dt ct ov inp s h hex
  have hsome := (firstCollision_isSome_iff (fun o => collisionDetected o.type (ov o))
    s.obstacles).mpr hex
  cases hfc : firstCollision (fun o => collisionDetected o.type (ov o)) s.obstacles with
  | none => rw [hfc] at hsome; simp at hsome
  | some o =>
    rw [frameStep_running_eq dt ct ov inp s h, spawnPhase_isGameOver, spawnPhase_playerColor]
    have hcp := collisionPhase_isGameOver_of_some ov (distancePhase dt s) o hfc
    exact ⟨hcp.1, hcp.2⟩

theorem c8_first_match_wins_witness :
    ((fun _ : Obstacle => true) obTable = true ∧
      ∃ l₁ l₂, [obTable] = l₁ ++ obTable :: l₂ ∧ ∀ p ∈ l₁, (fun _ : Obstacle => true) p = false) ∧
    (frameStep 1 0 (fun _ => true) inpFail sampleRunning).isGameOver = true ∧
      (frameStep 1 0 (fun _ => true) inpFail sampleRunning).playerColor = 0x0000ff :=
  ⟨c8_first_match_wins.1 (fun _ => true) [obTable] obTable rfl,
   c8_first_match_wins.2.2 1 0 (fun _ => true) inpFail sampleRunning rfl
     ⟨obTable, by simp [sampleRunning], by decide⟩⟩

theorem themeModelsOf_isEmpty_false :
    ∀ u, u < themeKeys.length → (themeModelsOf u).isEmpty = false := by decide

/-- C5: with the per-theme cap of 5, the five spawns issued from a fresh theme
counter all run under the current theme and the 6th runs under the next theme
in rotation order; rotation always stays inside `[0, themeKeys.length)` (so
`themeKeys[currentThemeIndex]` always names exactly one active theme), and a
successful spawn attempt really advances the theme state by exactly this
rotate-then-increment step. -/
theorem c5_theme_rotation (t : Nat) (ht : t < themeKeys.length) :
    (∀ k, k < maxObstaclesPerTheme → themeUsed (themeSpawnStep^[k] (t, 0)) = t) ∧
    themeUsed (themeSpawnStep^[maxObstaclesPerTheme] (t, 0)) = (t + 1) % themeKeys.length ∧
    (∀ c, (themeSpawnStep (t, c)).1 < themeKeys.length) ∧
    (∀ (inp : SpawnInputs) (s : GameState), inp.loadOk = true →
        s.currentThemeIndex < themeKeys.length →
        ((spawnAttempt inp s).currentThemeIndex,
          (spawnAttempt inp s).obstaclesSpawnedInCurrentTheme) =
          themeSpawnStep (s.currentThemeIndex, s.obstaclesSpawnedInCurrentTheme)) := by
  have ht4 : t < 4 := by simpa [themeKeys] using ht
  refine ⟨?_, ?_, ?_, ?_⟩
  · interval_cases t <;> decide
  · interval_cases t <;> decide
  · intro c
    unfold themeSpawnStep themeAfterEntry
    dsimp only
    split_ifs
    · exact Nat.mod_lt _ (by decide)
    · exact ht
  · intro inp s hok hs
    have htc : (themeAfterEntry s.currentThemeIndex s.obstaclesSpawnedInCurrentTheme).1 <
        themeKeys.length := by
      unfold themeAfterEntry
      split_ifs
      · exact Nat.mod_lt _ (by decide)
      · exact hs
    have hne := themeModelsOf_isEmpty_false _ htc
    unfold spawnAttempt
    dsimp only
    rw [hne, hok]
    rfl

theorem c5_theme_rotation_witness :
    themeUsed (themeSpawnStep^[0] ((0 : Nat), (0 : Nat))) = 0 ∧
    themeUsed (themeSpawnStep^[maxObstaclesPerTheme] ((0 : Nat), (0 : Nat))) =
      (0 + 1) % themeKeys.length ∧
    (themeSpawnStep (0, 5)).1 < themeKeys.length ∧
    ((spawnAttempt inpZero sampleCapped).currentThemeIndex,
      (spawnAttempt inpZero sampleCapped).obstaclesSpawnedInCurrentTheme) =
      themeSpawnStep (sampleCapped.currentThemeIndex,
        sampleCapped.obstaclesSpawnedInCurrentTheme) :=
  ⟨(c5_theme_rotation 0 (by decide)).1 0 (by decide),
   (c5_theme_rotation 0 (by decide)).2.1,
   (c5_theme_rotation 0 (by decide)).2.2.1 5,
   (c5_theme_rotation 0 (by decide)).2.2.2 inpZero sampleCapped rfl (by decide)⟩

/-- C9 (amended): when the asynchronous asset load of a spawn attempt fails,
nothing is inserted and `isGameOver`, `distanceCovered`, the obstacle list and
`lastSpawnTime` are untouched by `spawnObstacle` itself — but the theme
rotation and counter reset performed at entry to `spawnObstacle` persist (the
caller's `lastSpawnTime = currentTime` stamp is separate and is exhibited in
the counterexample). -/
theorem c9_failed_load_effect (inp : SpawnInputs) (s : GameState) (h : inp.loadOk = false) :
    spawnAttempt inp s =
      { s with
          currentThemeIndex :=
            (themeAfterEntry s.currentThemeIndex s.obstaclesSpawnedInCurrentTheme).1
          obstaclesSpawnedInCurrentTheme :=
            (themeAfterEntry s.currentThemeIndex s.obstaclesSpawnedInCurrentTheme).2 } ∧
    (spawnAttempt inp s).obstacles = s.obstacles ∧
    (spawnAttempt inp s).isGameOver = s.isGameOver ∧
    (spawnAttempt inp s).distanceCovered = s.distanceCovered ∧
    (spawnAttempt inp s).lastSpawnTime = s.lastSpawnTime := by
  have he : spawnAttempt inp s =
      { s with
          currentThemeIndex :=
            (themeAfterEntry s.currentThemeIndex s.obstaclesSpawnedInCurrentTheme).1
          obstaclesSpawnedInCurrentTheme :=
            (themeAfterEntry s.currentThemeIndex s.obstaclesSpawnedInCurrentTheme).2 } := by
    unfold spawnAttempt
    dsimp only
    split
    · rfl
    · rw [h]; rfl
  exact ⟨he, by rw [he], by rw [he], by rw [he], by rw [he]⟩

theorem c9_failed_load_effect_witness :
    spawnAttempt inpFail sampleOver =
      { sampleOver with
          currentThemeIndex :=
            (themeAfterEntry sampleOver.currentThemeIndex
              sampleOver.obstaclesSpawnedInCurrentTheme).1
          obstaclesSpawnedInCurrentTheme :=
            (themeAfterEntry sampleOver.currentThemeIndex
              sampleOver.obstaclesSpawnedInCurrentTheme).2 } ∧
    (spawnAttempt inpFail sampleOver).obstacles = sampleOver.obstacles ∧
    (spawnAttempt inpFail sampleOver).isGameOver = sampleOver.isGameOver ∧
    (spawnAttempt inpFail sampleOver).distanceCovered = sampleOver.distanceCovered ∧
    (spawnAttempt inpFail sampleOver).lastSpawnTime = sampleOver.lastSpawnTime :=
  c9_failed_load_effect inpFail sampleOver rfl

/-- C9 (counterexample): a spawn attempt whose asynchronous load fails, made
when the per-theme counter has reached the cap, still rotates the theme and
resets the counter (5 → 0, theme 0 → 1) and still inserts nothing; and the
caller's spawn gate still stamps `lastSpawnTime = currentTime` (0 → 100) on
the very frame of the failing attempt — contradicting the claim that no
game-state field changes as a result of a failed spawn attempt. -/
theorem c9_spawn_state_changes :
    (spawnAttempt inpFail sampleCapped).obstaclesSpawnedInCurrentTheme = 0 ∧
    sampleCapped.obstaclesSpawnedInCurrentTheme = 5 ∧
    (spawnAttempt inpFail sampleCapped).currentThemeIndex = 1 ∧
    sampleCapped.currentThemeIndex = 0 ∧
    (spawnAttempt inpFail sampleCapped).obstacles = sampleCapped.obstacles ∧
    (frameStep 1 100 noOverlap inpFail sampleCapped).lastSpawnTime = 100 ∧
    sampleCapped.lastSpawnTime = 0 := by
  refine ⟨rfl, rfl, rfl, rfl, rfl, ?_, rfl⟩
  rw [frameStep_running_eq 1 100 noOverlap inpFail sampleCapped rfl]
  norm_num [spawnPhase, removalPhase, collisionPhase, distancePhase, sampleCapped, inpFail,
    noOverlap, firstCollision, removalLoop, removalLoopAux, currentSpawnIntervalCode,
    baseSpawnInterval, difficultyStepDistance, spawnIntervalReductionFactor, minSpawnInterval,
    maxObstaclesInScene, playerSpeed, spawnAttempt, themeAfterEntry, themeModelsOf, themeKeys,
    maxObstaclesPerTheme, spawnAttempt_lastSpawnTime]

theorem mem_spawnAttempt_obstacles (inp : SpawnInputs) (s : GameState) :
    ∀ o ∈ (spawnAttempt inp s).obstacles, o ∈ s.obstacles ∨ o = spawnedOb inp s := by
  intro o ho
  unfold spawnAttempt at ho
  dsimp only at ho
  split at ho
  · exact Or.inl ho
  · split at ho
    · dsimp only at ho
      rw [List.mem_append] at ho
      rcases ho with h | h
      · exact Or.inl h
      · right
        rw [List.mem_singleton] at h
        rw [h]; rfl
    · exact Or.inl ho

theorem removalPhase_obstacles (s : GameState) :
    (removalPhase s).obstacles = removalLoop (cameraZ + 10) s.obstacles := rfl

theorem preframe_theme_eq (dt : ℚ) (ov : Obstacle → Bool) (s : GameState) :
    (removalPhase (collisionPhase ov (distancePhase dt s))).currentThemeIndex =
      s.currentThemeIndex ∧
    (removalPhase (collisionPhase ov (distancePhase dt s))).obstaclesSpawnedInCurrentTheme =
      s.obstaclesSpawnedInCurrentTheme := by
  have h := collisionPhase_theme ov (distancePhase dt s)
  exact ⟨h.1, h.2⟩

theorem spawnedOb_preframe (dt : ℚ) (ov : Obstacle → Bool) (inp : SpawnInputs) (s : GameState) :
    spawnedOb inp (removalPhase (collisionPhase ov (distancePhase dt s))) = spawnedOb inp s := by
  have h := preframe_theme_eq dt ov s
  unfold spawnedOb pickedFile
  rw [h.1, h.2]

theorem lanePositions_getD_mem : ∀ i, i < 3 → lanePositions.getD i (0 : ℚ) ∈ lanePositions := by
  intro i h
  interval_cases i <;> simp [lanePositions]

/-- C7: the reverse-index removal loop removes exactly the obstacles past the
threshold `camera.position.z + 10` and keeps all others in order (nothing is
skipped: the sweep equals a filter of the whole array); any live obstacle
past the threshold is gone after the pass, and after any running frame every
live obstacle — survivors and fresh spawns alike — sits at or before the
threshold, so an over-threshold obstacle is absent on the following frame. -/
theorem c7_removal_complete :
    (∀ l : List Obstacle, removalLoop (cameraZ + 10) l =
        l.filter (fun o => decide (o.pos.z ≤ cameraZ + 10))) ∧
    (∀ (l : List Obstacle) (o : Obstacle), o ∈ l → o.pos.z > cameraZ + 10 →
        o ∉ removalLoop (cameraZ + 10) l) ∧
    (∀ (dt ct : ℚ) (ov : Obstacle → Bool) (inp : SpawnInputs) (s : GameState),
        s.isGameOver = false → 0 ≤ inp.rz →
        ∀ o ∈ (frameStep dt ct ov inp s).obstacles, o.pos.z ≤ cameraZ + 10) := by
  refine ⟨removalLoop_eq_filter (cameraZ + 10), ?_, ?_⟩
  · intro l o _ hz hcon
    rw [mem_removalLoop] at hcon
    exact absurd hcon.2 (not_le.mpr hz)
  · intro dt ct ov inp s h hrz o ho
    rw [frameStep_running_eq dt ct ov inp s h] at ho
    have hz50 : (0 : ℚ) ≤ inp.rz * 50 := mul_nonneg hrz (by norm_num)
    have hmem3 : ∀ p, p ∈ (removalPhase (collisionPhase ov (distancePhase dt s))).obstacles →
        p.pos.z ≤ cameraZ + 10 := by
      intro p hp
      rw [removalPhase_obstacles, mem_removalLoop] at hp
      exact hp.2
    unfold spawnPhase at ho
    split at ho
    · dsimp only at ho
      rcases mem_spawnAttempt_obstacles inp _ o ho with h2 | h2
      · exact hmem3 o h2
      · rw [h2, spawnedOb_preframe]
        show -(inp.rz * 50) - 20 ≤ cameraZ + 10
        rw [cameraZ]
        linarith
    · exact hmem3 o ho

theorem c7_removal_complete_witness :
    removalLoop (cameraZ + 10) [obFar] =
      [obFar].filter (fun o => decide (o.pos.z ≤ cameraZ + 10)) ∧
    obFar ∉ removalLoop (cameraZ + 10) [obFar] ∧
    ∀ o ∈ (frameStep 1 0 noOverlap inpFail sampleRunning).obstacles,
      o.pos.z ≤ cameraZ + 10 :=
  ⟨c7_removal_complete.1 [obFar],
   c7_removal_complete.2.1 [obFar] obFar (by simp) (by norm_num [obFar, cameraZ]),
   c7_removal_complete.2.2 1 0 noOverlap inpFail sampleRunning rfl (le_refl 0)⟩

/-- C10 (counterexample): a spawn whose random depth draw is 0 inserts an
obstacle at exactly z = −20 (`-0·50 − 20`), which lies outside the claimed
band [−70, −20) — the code's band is (−70, −20], closed at −20 and open at
−70. -/
theorem c10_spawn_depth_counterexample :
    (spawnAttempt inpZero initialState).obstacles =
      [⟨⟨-5/2, 1/10, -20⟩, some "jump1.glb"⟩] ∧
    (spawnAttempt inpZero initialState).obstacles.map (fun o => decide (o.pos.z < -20)) =
      [false] := by
  have hy : configPositionY "jump1.glb" = 1/10 := rfl
  have h : (spawnAttempt inpZero initialState).obstacles =
      [⟨⟨-5/2, 1/10, -20⟩, some "jump1.glb"⟩] := by
    norm_num [spawnAttempt, initialState, inpZero, themeAfterEntry, themeModelsOf, themeKeys,
      maxObstaclesPerTheme, lanePositions, hy]
  refine ⟨h, ?_⟩
  rw [h]
  norm_num

/-- C10 (amended): every obstacle present after a frame is either an original
list member with its exact previous value — so x and y (and z, since the
current loop contains no motion either) are never modified after insertion —
or the freshly spawned obstacle, whose x is one of `lanePositions`, whose y is
its configuration's `positionY`, and whose z lies in the band (−70, −20];
moreover the early variant's motion loop changes only z, preserving each
obstacle's x and y. -/
theorem c10_spawn_lane_band (dt ct : ℚ) (ov : Obstacle → Bool) (inp : SpawnInputs)
    (s : GameState) (h1 : inp.laneIdx < 3) (h2 : 0 ≤ inp.rz) (h3 : inp.rz < 1) :
    (∀ o ∈ (frameStep dt ct ov inp s).obstacles, o ∈ s.obstacles ∨
        (o.pos.x ∈ lanePositions ∧ o.pos.y = configPositionY (pickedFile inp s) ∧
          -70 < o.pos.z ∧ o.pos.z ≤ -20)) ∧
    (∀ (hit : Vec3 → Bool) (l : List Obstacle), ∀ p ∈ (moveCollideRemove hit l).1,
        ∃ o ∈ l, p.pos.x = o.pos.x ∧ p.pos.y = o.pos.y) := by
  constructor
  · intro o ho
    cases hgo : s.isGameOver with
    | true =>
      left
      unfold frameStep at ho
      rw [if_pos hgo] at ho
      exact ho
    | false =>
      rw [frameStep_running_eq dt ct ov inp s hgo] at ho
      have hmem3 : ∀ p, p ∈ (removalPhase (collisionPhase ov (distancePhase dt s))).obstacles →
          p ∈ s.obstacles := by
        intro p hp
        rw [removalPhase_obstacles, mem_removalLoop] at hp
        have hc := hp.1
        rw [collisionPhase_obstacles] at hc
        exact hc
      unfold spawnPhase at ho
      split at ho
      · dsimp only at ho
        rcases mem_spawnAttempt_obstacles inp _ o ho with hh | hh
        · exact Or.inl (hmem3 o hh)
        · right
          subst hh
          rw [spawnedOb_preframe]
          refine ⟨lanePositions_getD_mem inp.laneIdx h1, rfl, ?_, ?_⟩
          · show (-70 : ℚ) < -(inp.rz * 50) - 20
            have h50 : inp.rz * 50 < 50 := by
              have := mul_lt_mul_of_pos_right h3 (by norm_num : (0:ℚ) < 50)
              linarith
            linarith
          · show -(inp.rz * 50) - 20 ≤ -20
            have h0 : (0 : ℚ) ≤ inp.rz * 50 := mul_nonneg h2 (by norm_num)
            linarith
      · exact Or.inl (hmem3 o ho)
  · intro hit l
    exact mcrAux_xy hit l.length l

theorem c10_spawn_lane_band_witness :
    (⟨⟨-5/2, 1/10, -20⟩, some "jump1.glb"⟩ : Obstacle) ∈ initialState.obstacles ∨
      ((⟨⟨-5/2, 1/10, -20⟩, some "jump1.glb"⟩ : Obstacle).pos.x ∈ lanePositions ∧
        (⟨⟨-5/2, 1/10, -20⟩, some "jump1.glb"⟩ : Obstacle).pos.y =
          configPositionY (pickedFile inpZero initialState) ∧
        -70 < (⟨⟨-5/2, 1/10, -20⟩, some "jump1.glb"⟩ : Obstacle).pos.z ∧
        (⟨⟨-5/2, 1/10, -20⟩, some "jump1.glb"⟩ : Obstacle).pos.z ≤ -20) :=
  (c10_spawn_lane_band 1 100 noOverlap inpZero initialState (by decide)
      (by norm_num [inpZero]) (by norm_num [inpZero])).1
    ⟨⟨-5/2, 1/10, -20⟩, some "jump1.glb"⟩
    (by
      rw [frameStep_running_eq 1 100 noOverlap inpZero initialState rfl]
      have hy : configPositionY "jump1.glb" = 1/10 := rfl
      norm_num [spawnPhase, removalPhase, collisionPhase, distancePhase, initialState, inpZero,
        noOverlap, firstCollision, removalLoop, removalLoopAux, currentSpawnIntervalCode,
        baseSpawnInterval, difficultyStepDistance, spawnIntervalReductionFactor,
        minSpawnInterval, maxObstaclesInScene, playerSpeed, spawnAttempt, themeAfterEntry,
        themeModelsOf, themeKeys, maxObstaclesPerTheme, lanePositions, hy])

/-- C6 (code evaluated at the failing input): in the current `animate` loop a
running frame with one live obstacle at z = −30, no overlap and no spawn
leaves the obstacle's forward-axis position exactly where it was — the loop
contains no motion statement, so no per-frame advance ever happens. -/
theorem c6_no_obstacle_motion :
    (frameStep 1 0 noOverlap inpFail sampleRunning).obstacles.map (fun o => o.pos.z) = [-30] ∧
    sampleRunning.obstacles.map (fun o => o.pos.z) = [-30] := by
  refine ⟨?_, by norm_num [sampleRunning, obTable]⟩
  rw [frameStep_running_eq 1 0 noOverlap inpFail sampleRunning rfl]
  norm_num [spawnPhase, removalPhase, collisionPhase, distancePhase, sampleRunning, obTable,
    inpFail, noOverlap, firstCollision, collisionDetected, includesLower, hasSubstr,
    removalLoop, removalLoopAux, spliceAt, currentSpawnIntervalCode, baseSpawnInterval,
    difficultyStepDistance, spawnIntervalReductionFactor, minSpawnInterval, maxObstaclesInScene,
    playerSpeed, cameraZ]

end TopDog
